import Mathlib

/-!
Verification development for the UniquersTranscriber repository
(src/server.js and src/cli-transcriber.js): a shallow embedding of the
upload -> extract -> transcribe -> poll -> persist pipeline, its batch
orchestration and its error/cleanup handling, together with theorems
settling the frozen claims about that pipeline.

Conventions of the embedding:
- JS strings are Lean String; integer millisecond offsets are Nat.
- Filesystem state is the list of paths currently existing; fs-extra
  remove (an rm -rf) is modelled as filtering the path out and never fails.
- Remote-service calls (AssemblyAI upload / transcript create / wait,
  ffmpeg extraction) are modelled by an oracle record holding the outcome
  of each call, so a run of the handler is a pure function of the uploaded
  file and the oracle.
- JS identifier resolution matters for the catch blocks of server.js: an
  identifier that is not bound in any scope enclosing the reference raises
  a ReferenceError. The names visible at each catch block are listed
  explicitly (from the declarations in the source) and resolution is a
  lookup in that list.
-/

namespace Transcriber

/-! ## JS string helpers -/

/-- Lowercasing of a string, character by character (model of
`String.prototype.toLowerCase` for the ASCII names used here). -/
def lowerStr (s : String) : String := String.mk (s.toList.map Char.toLower)

/-- Model of Node `path.extname` for plain file names (no directory
separators): the suffix from the last dot on, empty when there is no dot
or when the only dot is the leading character of a dotfile. -/
def extname (s : String) : String :=
  let cs := s.toList
  match cs.reverse.findIdx? (fun c => c == Char.ofNat 46) with
  | none => ""
  | some i =>
    let dotPos := cs.length - 1 - i
    if dotPos = 0 then "" else String.mk (cs.drop dotPos)

/-- Model of `path.parse(name).name`: the file name with its extension
stripped. -/
def parseName (s : String) : String := s.dropRight (extname s).length

/-- Model of `String.prototype.padStart(n, c)`. -/
def padStartStr (s : String) (n : Nat) (c : Char) : String :=
  if n ≤ s.length then s else String.mk (List.replicate (n - s.length) c) ++ s

/-- Removal of a path from the filesystem model (`fs.remove`, an rm -rf:
succeeds whether or not the path exists). -/
def removePath (fs : List String) (p : String) : List String :=
  fs.filter (fun q => q != p)

/-! ## Data model (section 3 of the spec, from the AssemblyAI payloads the
code reads) -/

/-- One diarized utterance of the transcript: speaker label, text and
start/end offsets in milliseconds (the source reads `speaker`, `text` and
`start`; `end` is carried along). -/
structure Utterance where
  speaker : String
  text : String
  start : Nat
  endMs : Nat
deriving DecidableEq, Repr

/-- One word-level token (passed through verbatim into the full JSON). -/
structure Word where
  text : String
  start : Nat
  endMs : Nat
deriving DecidableEq, Repr

/-- The completed transcript payload; `confidence` is a JSON number in
[0, 1], modelled as a rational since the pipeline only passes it through. -/
structure TranscriptResult where
  text : String
  utterances : List Utterance
  words : List Word
  confidence : Rat
  audio_duration : Nat
  language_code : String
deriving DecidableEq, Repr

/-- Remote transcription job status as the code tests it. -/
inductive TranscriptStatus where
  | queued
  | processing
  | completed
  | error
deriving DecidableEq, Repr

/-- One snapshot of the remote transcript object, as returned by
`client.transcripts.create` or `client.transcripts.get`. -/
structure RemoteTranscript where
  id : String
  status : TranscriptStatus
  errorMsg : Option String
  payload : Option TranscriptResult
deriving DecidableEq, Repr

/-! ## Media classifier (src/server.js lines 36-70) -/

/-- An uploaded file as multer presents it to the handlers. The stored
path is taken as given (the unique timestamp-random suffix of the real
storage callback is immaterial to the claims). -/
structure UploadedFile where
  originalname : String
  mimetype : String
  path : String
  size : Nat
deriving DecidableEq, Repr

/-- Video MIME allow-list (server.js lines 38-41). -/
def videoMimeTypes : List String :=
  ["video/mp4", "video/avi", "video/mov", "video/wmv", "video/flv",
   "video/webm", "video/x-msvideo", "video/quicktime"]

/-- Video extension allow-list (server.js line 43). -/
def videoExtensions : List String :=
  [".mp4", ".avi", ".mov", ".wmv", ".flv", ".webm"]

/-- Audio MIME allow-list (server.js lines 50-53). -/
def audioMimeTypes : List String :=
  ["audio/mpeg", "audio/mp3", "audio/wav", "audio/m4a", "audio/aac",
   "audio/ogg", "audio/x-m4a", "audio/mp4", "audio/x-wav", "audio/wave",
   "audio/x-aac"]

/-- Audio extension allow-list (server.js line 56). -/
def audioExtensions : List String :=
  [".mp3", ".wav", ".m4a", ".aac", ".ogg"]

/-- Classifier for video (server.js lines 37-47): MIME match or
lowercased-extension match. -/
def isVideoFile (f : UploadedFile) : Bool :=
  videoMimeTypes.contains f.mimetype
    || videoExtensions.contains (lowerStr (extname f.originalname))

/-- Classifier for audio (server.js lines 49-60). -/
def isAudioFile (f : UploadedFile) : Bool :=
  audioMimeTypes.contains f.mimetype
    || audioExtensions.contains (lowerStr (extname f.originalname))

/-- Destination directory chosen by multer storage (server.js lines
62-70). -/
def getFileDestination (f : UploadedFile) : String :=
  if isVideoFile f then "uploads/video"
  else if isAudioFile f then "uploads/audio"
  else "uploads"

/-! ## Multer fileFilter (src/server.js lines 131-158) -/

/-- The MIME allow-list of the upload filter (server.js lines 137-143);
note the final entry `application/octet-stream`, which is not an audio or
video type. -/
def allowedTypes : List String :=
  ["audio/mpeg", "audio/mp3", "audio/wav", "audio/m4a", "audio/aac",
   "video/mp4", "video/avi", "video/mov", "video/wmv", "video/flv",
   "audio/ogg", "video/webm", "audio/x-m4a", "video/x-msvideo",
   "audio/mp4", "video/quicktime", "audio/x-wav", "audio/wave",
   "audio/x-aac", "application/octet-stream"]

/-- The extension allow-list of the upload filter (server.js lines
145-148). -/
def allowedExtensions : List String :=
  [".mp3", ".wav", ".m4a", ".aac", ".mp4", ".avi", ".mov",
   ".wmv", ".flv", ".ogg", ".webm"]

/-- The fileFilter callback (server.js lines 136-157): accept when the
MIME type or the lowercased extension matches; otherwise fail with the
message naming the type and the file name. -/
def fileFilter (f : UploadedFile) : Except String Unit :=
  if allowedTypes.contains f.mimetype
      || allowedExtensions.contains (lowerStr (extname f.originalname)) then
    Except.ok ()
  else
    Except.error ("Unsupported file type: " ++ f.mimetype ++ " (" ++ f.originalname ++ ")")

/-! ## Result persister: derived text formats (server.js lines 251-286,
cli-transcriber.js lines 201-233; the two sites are verbatim duplicates
for these formats) -/

/-- Speaker-labeled text: one line per utterance, blank-line separated
(server.js lines 256-258). -/
def speakerText (us : List Utterance) : String :=
  String.intercalate "\n\n"
    (us.map (fun u => "Speaker " ++ u.speaker ++ ": " ++ u.text))

/-- Timestamp prefix of one utterance (server.js lines 264-267):
whole seconds, then unpadded minutes and two-digit zero-padded seconds. -/
def timeFormat (startMs : Nat) : String :=
  let startTime := startMs / 1000
  let startMinutes := startTime / 60
  let startSeconds := startTime % 60
  toString startMinutes ++ ":" ++ padStartStr (toString startSeconds) 2 (Char.ofNat 48)

/-- One line of the timestamped file (server.js line 268). -/
def renderTimestampLine (u : Utterance) : String :=
  "[" ++ timeFormat u.start ++ "] Speaker " ++ u.speaker ++ ": " ++ u.text

/-- The timestamped file body (server.js lines 262-270). -/
def timestampText (us : List Utterance) : String :=
  String.intercalate "\n\n" (us.map renderTimestampLine)

/-- File names written by STEP 5 in write order (server.js lines 246-286):
the plain text file, then, only when the utterance list is nonempty, the
speakers and timestamps files, then the full JSON file. -/
def step5Files (baseName : String) (t : TranscriptResult) : List String :=
  [baseName ++ ".txt"]
    ++ (if t.utterances.isEmpty then []
        else [baseName ++ "_speakers.txt", baseName ++ "_timestamps.txt"])
    ++ [baseName ++ "_full.json"]

/-! ## Full JSON documents (server.js lines 278-285, cli-transcriber.js
lines 225-233) -/

/-- A value of the full-JSON object, tagged by the TranscriptResult field
it passes through verbatim. -/
inductive FieldValue where
  | ofText : String → FieldValue
  | ofUtterances : List Utterance → FieldValue
  | ofWords : List Word → FieldValue
  | ofConfidence : Rat → FieldValue
  | ofDuration : Nat → FieldValue
  | ofLanguage : String → FieldValue
deriving DecidableEq, Repr

/-- One `JSON.stringify(obj, null, indent)` call: the object fields in
insertion order (which stringify preserves) and the indent argument. -/
structure JsonWrite where
  fields : List (String × FieldValue)
  indent : Nat
deriving DecidableEq, Repr

/-- The server fullData object (server.js lines 278-284): five fields,
with no language_code. -/
def serverFullData (t : TranscriptResult) : JsonWrite :=
  ⟨[("text", FieldValue.ofText t.text),
    ("utterances", FieldValue.ofUtterances t.utterances),
    ("words", FieldValue.ofWords t.words),
    ("confidence", FieldValue.ofConfidence t.confidence),
    ("audio_duration", FieldValue.ofDuration t.audio_duration)], 2⟩

/-- The CLI fullData object (cli-transcriber.js lines 225-232): the same
five fields followed by language_code. -/
def cliFullData (t : TranscriptResult) : JsonWrite :=
  ⟨[("text", FieldValue.ofText t.text),
    ("utterances", FieldValue.ofUtterances t.utterances),
    ("words", FieldValue.ofWords t.words),
    ("confidence", FieldValue.ofConfidence t.confidence),
    ("audio_duration", FieldValue.ofDuration t.audio_duration),
    ("language_code", FieldValue.ofLanguage t.language_code)], 2⟩

/-! ## Success response bodies (server.js lines 300-322 and 494-514) -/

/-- One file reference of the success response: filename plus download
URL. The URL is `/download/` followed by `encodeURIComponent` of
`base/name`; for the alphanumeric names in play the only encoded
character is the slash separator. -/
structure FileRef where
  filename : String
  downloadUrl : String
deriving DecidableEq, Repr

/-- The four file references of a success response (keys transcript,
speakers, timestamps, fullData). -/
structure SuccessFiles where
  transcript : FileRef
  speakers : FileRef
  timestamps : FileRef
  fullData : FileRef
deriving DecidableEq, Repr

/-- One file reference for a given base name and suffix. -/
def mkFileRef (baseName suffix : String) : FileRef :=
  ⟨baseName ++ suffix,
   "/download/" ++ (baseName ++ "%2F" ++ baseName ++ suffix)⟩

/-- The files object of the success response (server.js lines 304-321):
always references all four names, unconditionally on what was written. -/
def successFiles (baseName : String) : SuccessFiles :=
  ⟨mkFileRef baseName ".txt",
   mkFileRef baseName "_speakers.txt",
   mkFileRef baseName "_timestamps.txt",
   mkFileRef baseName "_full.json"⟩

/-- The four filenames referenced by a success response, in field order. -/
def referencedFilenames (sf : SuccessFiles) : List String :=
  [sf.transcript.filename, sf.speakers.filename,
   sf.timestamps.filename, sf.fullData.filename]

/-- One per-file success record of a batch response (server.js lines
494-514); the single-file success body carries the same data plus a
message. -/
structure SuccessRecord where
  originalFilename : String
  files : SuccessFiles
deriving DecidableEq, Repr

/-- An error record of the batch errors list (server.js lines 526-529). -/
structure ErrRecord where
  filename : String
  error : String
deriving DecidableEq, Repr

/-! ## Remote-call oracle and the shared per-file pipeline body
(server.js lines 181-322 for the single handler, 386-516 for a batch
element; the two are verbatim duplicates up to the temp-audio name) -/

/-- Outcomes of the effectful steps of one job, in pipeline order:
ffmpeg extraction (consulted only for video files), the AssemblyAI
upload (its URL on success), transcript creation (the new id), and
`waitUntilReady` (the completed transcript). An `Except.error` is the
rejection message of that call. -/
structure SingleOracle where
  extract : Except String Unit
  upload : Except String String
  create : Except String String
  wait : Except String TranscriptResult

/-- Remote calls issued by the server pipeline, in order. -/
inductive ServerCall where
  | upload
  | create
  | wait
deriving DecidableEq, Repr

/-- The body of the per-file try block, shared between the single handler
and one batch iteration: classify, extract audio for video, upload,
create, wait, write the STEP 5 files, then the STEP 6 cleanup of the
original upload and any extracted audio. Takes the filesystem before the
job and the temp-audio path this job would use, and returns the success
record or the thrown message, the filesystem after, and the remote calls
issued. -/
def tryBodyCommon (f : UploadedFile) (o : SingleOracle) (tempAudioPath : String)
    (fs : List String) :
    Except String SuccessRecord × List String × List ServerCall :=
  let baseName := parseName f.originalname
  let run : List String → String →
      Except String SuccessRecord × List String × List ServerCall :=
    fun fsIn audioFilePath =>
      match o.upload with
      | Except.error m => (Except.error m, fsIn, [ServerCall.upload])
      | Except.ok _url =>
        match o.create with
        | Except.error m =>
          (Except.error m, fsIn, [ServerCall.upload, ServerCall.create])
        | Except.ok _id =>
          match o.wait with
          | Except.error m =>
            (Except.error m, fsIn,
             [ServerCall.upload, ServerCall.create, ServerCall.wait])
          | Except.ok t =>
            let outs := (step5Files baseName t).map
              (fun n => "transcriptions/" ++ baseName ++ "/" ++ n)
            let fs1 := fsIn ++ outs
            let fs2 := removePath fs1 f.path
            let fs3 := if audioFilePath != f.path then removePath fs2 audioFilePath
                       else fs2
            (Except.ok ⟨f.originalname, successFiles baseName⟩, fs3,
             [ServerCall.upload, ServerCall.create, ServerCall.wait])
  if isVideoFile f then
    match o.extract with
    | Except.error m =>
      (Except.error ("Failed to extract audio from video: " ++ m), fs, [])
    | Except.ok _ => run (fs ++ [tempAudioPath]) tempAudioPath
  else
    run fs f.path

/-! ## Scope of the catch blocks

In server.js, the single-file handler declares `filePath` (line 181) and
`audioFilePath` (line 184) with `let` INSIDE the try block that starts at
line 173; the batch handler likewise declares `audioFilePath` (line 389)
inside the per-file try block that starts at line 383. A `let` binding is
scoped to its enclosing block, so neither binding is visible in the
corresponding catch block. The lists below enumerate the names that ARE
bound in scopes enclosing each catch block (module scope, the route
closure, the middleware callback parameters, surrounding loop bindings
and the catch parameter), taken from the declarations in the source. -/

/-- Names in scope at the single-handler catch block (server.js line
324). -/
def singleCatchScopeNames : List String :=
  ["express", "multer", "cors", "path", "fs", "AssemblyAI", "ffmpeg",
   "app", "PORT", "client", "uploadsDir", "videoDir", "audioDir",
   "transcriptionsDir", "tempDir", "isVideoFile", "isAudioFile",
   "getFileDestination", "checkFFmpegAvailability",
   "extractAudioFromVideo", "storage", "upload", "req", "res", "err"]

/-- Names in scope at the batch per-file catch block (server.js line
518): the enclosing scopes of the single case plus the outer-try bindings
`results` and `errors` (lines 376-377) and the loop bindings `i`, `file`,
`fileNum` (lines 379-381). -/
def batchCatchScopeNames : List String :=
  ["express", "multer", "cors", "path", "fs", "AssemblyAI", "ffmpeg",
   "app", "PORT", "client", "uploadsDir", "videoDir", "audioDir",
   "transcriptionsDir", "tempDir", "isVideoFile", "isAudioFile",
   "getFileDestination", "checkFFmpegAvailability",
   "extractAudioFromVideo", "storage", "upload", "req", "res", "err",
   "results", "errors", "i", "file", "fileNum", "error"]

/-- JS identifier resolution against a scope: `none` means the reference
raises a ReferenceError. -/
def resolveIdent (scope : List String) (x : String) : Option Unit :=
  if scope.contains x then some () else none

/-! ## Single-file handler (server.js lines 166-353) -/

/-- What the single-file request produced at the caller: a 200 success
body, a 400 or 500 error body, or no response at all because an uncaught
exception aborted the handler (the request is left hanging and the
rejection is unhandled). -/
inductive SingleResponse where
  | ok (message : String) (record : SuccessRecord)
  | badRequest (error : String)
  | serverError (error details : String)
  | noResponse (uncaught : String)
deriving DecidableEq, Repr

/-- Whether any HTTP response was sent to the caller. -/
def responseSent : SingleResponse → Bool
  | SingleResponse.noResponse _ => false
  | _ => true

/-- Outcome of one single-file request: the response, the filesystem
after the handler finished, and the remote calls issued. -/
structure SingleResult where
  response : SingleResponse
  fs : List String
  calls : List ServerCall
deriving DecidableEq, Repr

/-- The single-file handler after multer accepted the file (server.js
lines 173-352). On a thrown error, the catch block removes the uploaded
file (line 335) and then reads the identifier `audioFilePath` (line 339),
which resolves against `singleCatchScopeNames`; an unresolved identifier
raises a ReferenceError whose message V8 renders as
"audioFilePath is not defined", so the 500 response of lines 345-350 is
never sent. The resolved branch carries those lines as written. -/
def handleSingle (file : Option UploadedFile) (o : SingleOracle) : SingleResult :=
  match file with
  | none => ⟨SingleResponse.badRequest "No file uploaded", [], []⟩
  | some f =>
    let tempAudioPath := "temp/" ++ parseName f.originalname ++ "_audio.m4a"
    match tryBodyCommon f o tempAudioPath [f.path] with
    | (Except.ok r, fs, calls) =>
      ⟨SingleResponse.ok "Transcription completed successfully" r, fs, calls⟩
    | (Except.error m, fs, calls) =>
      let fs1 := removePath fs f.path
      match resolveIdent singleCatchScopeNames "audioFilePath" with
      | none => ⟨SingleResponse.noResponse "audioFilePath is not defined", fs1, calls⟩
      | some _ =>
        let fs2 := if tempAudioPath != f.path then removePath fs1 tempAudioPath
                   else fs1
        ⟨SingleResponse.serverError "Internal Server Error" m, fs2, calls⟩

/-- The whole single-upload endpoint: multer runs the fileFilter first;
a rejected file is never stored and the handler answers 400 with the
filter message (server.js lines 168-171) before any pipeline step. -/
def uploadEndpoint (f : UploadedFile) (o : SingleOracle) : SingleResult :=
  match fileFilter f with
  | Except.error m => ⟨SingleResponse.badRequest m, [], []⟩
  | Except.ok _ => handleSingle (some f) o

/-! ## Batch handler (server.js lines 356-584) -/

/-- One accepted file of a batch together with the outcomes of its
remote calls. -/
structure BatchFile where
  file : UploadedFile
  oracle : SingleOracle

/-- The response of the batch endpoint. -/
inductive BatchResponse where
  | ok (results : List SuccessRecord) (errors : List ErrRecord)
      (totalProcessed totalErrors : Nat)
  | badRequest (error : String)
  | serverError (error details : String)
deriving DecidableEq, Repr

/-- Outcome of one batch request. -/
structure BatchResult where
  response : BatchResponse
  fs : List String
deriving DecidableEq, Repr

/-- The per-file loop of the batch handler (server.js lines 379-541).
On a per-file failure the catch block records the error (lines 526-529)
and removes the uploaded file (line 532); it then reads `audioFilePath`
(line 535), which resolves against `batchCatchScopeNames`. An unresolved
identifier raises a ReferenceError that escapes the per-file catch, so
the loop stops and the exception message is handed to the outer catch
(the fourth component). The resolved branch carries lines 535-539 as
written and continues with the next file. -/
def batchLoop :
    List BatchFile → Nat → List SuccessRecord → List ErrRecord → List String →
    List SuccessRecord × List ErrRecord × List String × Option String
  | [], _, results, errors, fs => (results, errors, fs, none)
  | bf :: rest, fileNum, results, errors, fs =>
    let tempAudioPath :=
      "temp/" ++ parseName bf.file.originalname ++ "_audio_"
        ++ toString fileNum ++ ".m4a"
    match tryBodyCommon bf.file bf.oracle tempAudioPath fs with
    | (Except.ok r, fs1, _) =>
      batchLoop rest (fileNum + 1) (results ++ [r]) errors fs1
    | (Except.error m, fs1, _) =>
      let errors1 := errors ++ [⟨bf.file.originalname, m⟩]
      let fs2 := removePath fs1 bf.file.path
      match resolveIdent batchCatchScopeNames "audioFilePath" with
      | none => (results, errors1, fs2, some "audioFilePath is not defined")
      | some _ =>
        let fs3 := if tempAudioPath != bf.file.path then removePath fs2 tempAudioPath
                   else fs2
        batchLoop rest (fileNum + 1) results errors1 fs3

/-- The batch endpoint after multer accepted the files (server.js lines
363-583). When the loop finishes without an escaping exception the
response is the success envelope of lines 550-556; when an exception
escapes, the outer catch removes every uploaded path (lines 568-574) and
answers 500 (lines 576-581). -/
def handleBatch (files : List BatchFile) : BatchResult :=
  match files with
  | [] => ⟨BatchResponse.badRequest "No files uploaded", []⟩
  | _ =>
    let fs0 := files.map (fun bf => bf.file.path)
    match batchLoop files 1 [] [] fs0 with
    | (results, errors, fs, none) =>
      ⟨BatchResponse.ok results errors results.length errors.length, fs⟩
    | (_, _, fs, some m) =>
      let fs1 := files.foldl (fun a bf => removePath a bf.file.path) fs
      ⟨BatchResponse.serverError "Batch transcription failed" m, fs1⟩

/-! ## CLI poll loop (cli-transcriber.js lines 162-186) -/

/-- The while loop of processFile (lines 167-176): while the current
snapshot has status queued or processing, wait the fixed 5000 ms and read
the next scripted `client.transcripts.get` response. `cur` starts as the
`create` response (line 164), `checks` counts status observations so far
(the create response being the first), `waits` lists the sleep durations
taken. Returns `none` when the script runs out while the loop would issue
another get. -/
def pollLoopAux :
    RemoteTranscript → Nat → List Nat → List RemoteTranscript →
    Option (RemoteTranscript × Nat × List Nat)
  | cur, checks, waits, [] =>
    if cur.status = TranscriptStatus.queued ∨ cur.status = TranscriptStatus.processing then
      none
    else
      some (cur, checks, waits)
  | cur, checks, waits, next :: rest =>
    if cur.status = TranscriptStatus.queued ∨ cur.status = TranscriptStatus.processing then
      pollLoopAux next (checks + 1) (waits ++ [5000]) rest
    else
      some (cur, checks, waits)

/-- The poll phase of processFile: run the loop from the create response,
then the terminal-status test of lines 178-181 (status error throws with
the remote-supplied error text). -/
def cliPoll (createResp : RemoteTranscript) (gets : List RemoteTranscript) :
    Except String (RemoteTranscript × Nat × List Nat) :=
  match pollLoopAux createResp 1 [] gets with
  | none => Except.error "status script exhausted"
  | some (fin, checks, waits) =>
    if fin.status = TranscriptStatus.error then
      Except.error ("Transcription failed: " ++ fin.errorMsg.getD "undefined")
    else
      Except.ok (fin, checks, waits)

/-! ## CLI upload phase (cli-transcriber.js lines 126-155) -/

/-- Options handed to processFile by the CLI action. -/
structure CliOptions where
  language : Option String
  speakers : Option Nat
  punctuate : Option Bool
  formatText : Option Bool
  dualChannel : Option Bool
deriving DecidableEq, Repr

/-- The transcription request configuration (lines 141-151). -/
structure TranscriptionConfig where
  audio_url : String
  language_code : String
  speaker_labels : Bool
  punctuate : Option Bool
  format_text : Option Bool
  dual_channel : Option Bool
deriving DecidableEq, Repr

/-- Remote calls of the CLI upload phase, in order. -/
inductive CliRemoteCall where
  | uploadFile (path url : String)
  | createJob (cfg : TranscriptionConfig)
deriving DecidableEq, Repr

/-- Whether a CLI remote call is a file upload. -/
def isUploadCall : CliRemoteCall → Bool
  | CliRemoteCall.uploadFile _ _ => true
  | _ => false

/-- The upload-and-create phase of processFile. Line 129 uploads the
audio file and binds the returned URL to `audioFile`, which is only
logged (line 131) and never used again; line 142 uploads the SAME file a
second time inside the config literal and that URL becomes `audio_url`.
`urls` gives the URL returned by the n-th upload call (0-based). The
language code is `options.language || "ru"` (line 143) and speaker_labels
is fixed true (line 144); the optional flags are copied when present
(lines 149-151). Returns the config passed to `client.transcripts.create`
(line 153) and the ordered remote-call trace. -/
def cliUploadPhase (audioFilePath : String) (urls : Nat → String)
    (opts : CliOptions) : TranscriptionConfig × List CliRemoteCall :=
  let audioFile := urls 0
  let secondUrl := urls 1
  let cfg : TranscriptionConfig :=
    { audio_url := secondUrl
      language_code := opts.language.getD "ru"
      speaker_labels := true
      punctuate := opts.punctuate
      format_text := opts.formatText
      dual_channel := opts.dualChannel }
  (cfg, [CliRemoteCall.uploadFile audioFilePath audioFile,
         CliRemoteCall.uploadFile audioFilePath secondUrl,
         CliRemoteCall.createJob cfg])

/-! ## Concrete inputs used by the theorems -/

/-- A sample completed transcript with one utterance. -/
def sampleResult : TranscriptResult :=
  { text := "hello there"
    utterances := [{ speaker := "A", text := "hello there", start := 125000, endMs := 130000 }]
    words := [{ text := "hello", start := 125000, endMs := 126000 }]
    confidence := (87 : Rat) / 100
    audio_duration := 130
    language_code := "ru" }

/-- A completed transcript whose utterance list is empty. -/
def emptyUttResult : TranscriptResult :=
  { text := "hello"
    utterances := []
    words := []
    confidence := (9 : Rat) / 10
    audio_duration := 7
    language_code := "ru" }

/-- A video upload as multer stores it. -/
def videoUpload : UploadedFile :=
  ⟨"movie.mp4", "video/mp4", "uploads/video/file-1.mp4", 1000⟩

/-- An audio upload. -/
def audioUpload : UploadedFile :=
  ⟨"talk.mp3", "audio/mpeg", "uploads/audio/file-2.mp3", 500⟩

/-- A second audio upload, used as the sibling file of a batch. -/
def audioUploadB : UploadedFile :=
  ⟨"b.mp3", "audio/mpeg", "uploads/audio/file-3.mp3", 400⟩

/-- A file whose declared MIME type is the generic
application/octet-stream and whose extension matches no allow-list. -/
def octetFile : UploadedFile :=
  ⟨"data.xyz", "application/octet-stream", "uploads/file-9.xyz", 10⟩

/-- A plainly unsupported file (text). -/
def txtFile : UploadedFile :=
  ⟨"notes.txt", "text/plain", "uploads/file-7.txt", 3⟩

/-- Oracle on which every remote step succeeds. -/
def allOkOracle : SingleOracle :=
  { extract := Except.ok ()
    upload := Except.ok "https://cdn.assemblyai.com/upload/u1"
    create := Except.ok "t1"
    wait := Except.ok sampleResult }

/-- The create response of the scripted poll run: status queued. -/
def scriptedCreateResp : RemoteTranscript :=
  ⟨"t1", TranscriptStatus.queued, none, none⟩

/-- The scripted get responses: processing, processing, completed, plus
a sentinel entry that a correct loop never requests. -/
def scriptedGets : List RemoteTranscript :=
  [⟨"t1", TranscriptStatus.processing, none, none⟩,
   ⟨"t1", TranscriptStatus.processing, none, none⟩,
   ⟨"t1", TranscriptStatus.completed, none, some sampleResult⟩,
   ⟨"t1", TranscriptStatus.error, some "never polled", none⟩]

/-- Oracle on which ffmpeg extraction fails (ffmpeg absent). -/
def extractFailOracle : SingleOracle :=
  { allOkOracle with extract := Except.error "FFmpeg is not installed" }

/-- Oracle on which the AssemblyAI upload fails. -/
def uploadFailOracle : SingleOracle :=
  { allOkOracle with upload := Except.error "Upload failed: network unreachable" }

/-- Oracle on which transcript creation fails. -/
def createFailOracle : SingleOracle :=
  { allOkOracle with create := Except.error "Transcription request failed" }

/-! ## Spec-side renderings (named from the words of the specification,
for comparison with the source-derived definitions) -/

/-- Zero-padding to two digits as the spec words it: seconds below ten
get a leading zero. -/
def specPad2 (n : Nat) : String :=
  if n < 10 then "0" ++ toString n else toString n

/-- The timestamped line as the spec words it: minutes are the whole
seconds divided by 60, unpadded; seconds are the remainder, two-digit
zero-padded. -/
def specTimestampLine (u : Utterance) : String :=
  "[" ++ (toString (u.start / 1000 / 60) ++ ":" ++ specPad2 (u.start / 1000 % 60))
    ++ "] Speaker " ++ u.speaker ++ ": " ++ u.text

/-- Padding a sub-two-digit numeral to width two with the zero character
agrees with the spec wording for every value a seconds field can take. -/
theorem pad2_spec : ∀ n, n < 60 →
    padStartStr (toString n) 2 (Char.ofNat 48) = specPad2 n := by decide

/-- The source timeFormat in closed form. -/
theorem timeFormat_eq (s : Nat) :
    timeFormat s = toString (s / 1000 / 60) ++ ":" ++ specPad2 (s / 1000 % 60) := by
  show toString (s / 1000 / 60) ++ ":"
      ++ padStartStr (toString (s / 1000 % 60)) 2 (Char.ofNat 48) = _
  rw [pad2_spec _ (Nat.mod_lt _ (by decide))]

/-! ## Claim theorems -/

/-- C1: the claim says a per-file failure in a batch is recorded and the
orchestrator continues with the remaining files, the outcome carrying
N-1 success records and 1 error record. The code violates this: in the
per-file catch (server.js line 535) `audioFilePath` is out of scope
(it is let-bound inside the try block, line 389), so the catch itself
raises a ReferenceError that escapes to the outer catch, which answers
500 and abandons the remaining files. Evaluated here on a batch of two
files whose first fails extraction: the response is the 500 error
envelope, and the second (healthy) file is never processed, so none of
its output files exist afterwards. -/
theorem C1_batch_failure_aborts_batch :
    handleBatch [⟨videoUpload, extractFailOracle⟩, ⟨audioUploadB, allOkOracle⟩] =
      ⟨BatchResponse.serverError "Batch transcription failed"
        "audioFilePath is not defined", []⟩
    ∧ "transcriptions/b/b.txt" ∉
        (handleBatch [⟨videoUpload, extractFailOracle⟩,
          ⟨audioUploadB, allOkOracle⟩]).fs := by
  exact ⟨by decide, by decide⟩

/-- C2: the claim says the original upload and any extracted temp audio
are both removed on every terminal path. The code violates the second
half: on any failure after a successful extraction, the catch removes
the original (line 335) but then raises ReferenceError reading the
out-of-scope `audioFilePath` (line 339) before the extracted-audio
removal can run, so the temp file outlives the job. Evaluated on a video
upload whose extraction succeeds and whose AssemblyAI upload then fails:
the extracted temp file is still on disk and no response was sent, while
on the all-success run both files are gone. -/
theorem C2_extracted_audio_leaks_on_failure :
    (handleSingle (some videoUpload) uploadFailOracle).response =
      SingleResponse.noResponse "audioFilePath is not defined"
    ∧ "temp/movie_audio.m4a" ∈ (handleSingle (some videoUpload) uploadFailOracle).fs
    ∧ videoUpload.path ∉ (handleSingle (some videoUpload) uploadFailOracle).fs
    ∧ "temp/movie_audio.m4a" ∉ (handleSingle (some videoUpload) allOkOracle).fs
    ∧ videoUpload.path ∉ (handleSingle (some videoUpload) allOkOracle).fs := by
  refine ⟨by decide, by decide, by decide, by decide, by decide⟩

/-- C3 counterexample: a file whose declared MIME type
(application/octet-stream) and extension (.xyz) both fall outside every
audio and video allow-list of the code is nevertheless accepted by the
upload filter — application/octet-stream is itself an entry of the
filter list — and its job proceeds to the remote upload and transcribe
steps, refuting the claim as stated. -/
theorem C3_counterexample_octet_stream :
    audioMimeTypes.contains octetFile.mimetype = false
    ∧ videoMimeTypes.contains octetFile.mimetype = false
    ∧ audioExtensions.contains (lowerStr (extname octetFile.originalname)) = false
    ∧ videoExtensions.contains (lowerStr (extname octetFile.originalname)) = false
    ∧ isAudioFile octetFile = false
    ∧ isVideoFile octetFile = false
    ∧ (fileFilter octetFile).isOk = true
    ∧ (uploadEndpoint octetFile allOkOracle).calls =
        [ServerCall.upload, ServerCall.create, ServerCall.wait] := by
  refine ⟨by decide, by decide, by decide, by decide, by decide, by decide,
    by decide, by decide⟩

/-- C3 (amended): the filter MIME allow-list is the audio/video MIME
types plus application/octet-stream; every uploaded file whose MIME type
is outside THAT list and whose lowercased extension is outside the
extension allow-list is rejected before any remote call, with the error
message naming the offending type and file name, and nothing of it is
ever stored or processed. -/
theorem C3_reject_outside_filter_lists (f : UploadedFile) (o : SingleOracle)
    (h1 : allowedTypes.contains f.mimetype = false)
    (h2 : allowedExtensions.contains (lowerStr (extname f.originalname)) = false) :
    uploadEndpoint f o =
      ⟨SingleResponse.badRequest
        ("Unsupported file type: " ++ f.mimetype ++ " (" ++ f.originalname ++ ")"),
       [], []⟩ := by
  unfold uploadEndpoint fileFilter
  rw [h1, h2]
  rfl

/-- C3 witness: a text/plain upload satisfies both hypotheses and is
answered 400 with the naming message, with no remote calls. -/
theorem C3_reject_witness :
    allowedTypes.contains txtFile.mimetype = false
    ∧ allowedExtensions.contains (lowerStr (extname txtFile.originalname)) = false
    ∧ uploadEndpoint txtFile allOkOracle =
        ⟨SingleResponse.badRequest "Unsupported file type: text/plain (notes.txt)",
         [], []⟩ := by
  refine ⟨by decide, by decide, ?_⟩
  exact C3_reject_outside_filter_lists txtFile allOkOracle (by decide) (by decide)

/-- C4: the claim says every failed single-file job is answered with a
non-2xx response carrying error and details fields. The code violates
this: the catch removes the upload and then raises ReferenceError
reading the out-of-scope `audioFilePath` (line 339), so the 500
`{error, details}` response of lines 345-350 is never sent and the
caller receives no response at all. Evaluated on an audio upload whose
transcript-creation call fails. -/
theorem C4_no_error_response_on_failure :
    (handleSingle (some audioUpload) createFailOracle).response =
      SingleResponse.noResponse "audioFilePath is not defined"
    ∧ responseSent (handleSingle (some audioUpload) createFailOracle).response
        = false := by
  exact ⟨by decide, by decide⟩

/-- C5: the claim says an accepted batch is always answered with a
success-true envelope, however many jobs failed. The code violates this
for every batch with at least one failing job: the per-file
ReferenceError (line 535) escapes to the outer catch, which answers 500
with an error envelope and no success field. Evaluated on a batch of one
failing file (claim case: every job failed) against a batch of one
succeeding file, which does get the success envelope. -/
theorem C5_batch_envelope_500_on_failure :
    (handleBatch [⟨videoUpload, extractFailOracle⟩]).response =
      BatchResponse.serverError "Batch transcription failed"
        "audioFilePath is not defined"
    ∧ (handleBatch [⟨audioUploadB, allOkOracle⟩]).response =
        BatchResponse.ok [⟨"b.mp3", successFiles "b"⟩] [] 1 0 := by
  exact ⟨by decide, by decide⟩

/-- C6: the timestamped line of every utterance renders as
`[M:SS] Speaker label: text` with M the (unpadded, unwrapped) whole
minutes of the start offset and SS the two-digit zero-padded remaining
seconds, exactly as the spec words it; in particular a start of 125000 ms
gives 2:05, 59000 ms gives 0:59 and 3605000 ms gives 60:05. -/
theorem C6_timestamp_format :
    (∀ u : Utterance, renderTimestampLine u = specTimestampLine u)
    ∧ timeFormat 125000 = "2:05"
    ∧ timeFormat 59000 = "0:59"
    ∧ timeFormat 3605000 = "60:05" := by
  refine ⟨fun u => ?_, by decide, by decide, by decide⟩
  show "[" ++ timeFormat u.start ++ "] Speaker " ++ u.speaker ++ ": " ++ u.text = _
  rw [timeFormat_eq]
  rfl

/-- C7 counterexample: the server fullData object (server.js lines
278-284) does not contain the language_code field, so the claimed
six-field document is refuted on the server path for a concrete
completed transcript. -/
theorem C7_server_omits_language_code :
    ¬ ((serverFullData sampleResult).fields.map Prod.fst =
        ["text", "utterances", "words", "confidence", "audio_duration",
         "language_code"])
    ∧ "language_code" ∉ (serverFullData sampleResult).fields.map Prod.fst := by
  exact ⟨by decide, by decide⟩

/-- C7 (amended): for every completed transcript, the CLI full JSON
contains exactly text, utterances, words, confidence, audio_duration and
language_code, in that order, each the verbatim TranscriptResult field;
the server full JSON contains exactly the first five of those, in that
order, with no language_code; both are serialized with 2-space
indentation. -/
theorem C7_fulldata_fields : ∀ t : TranscriptResult,
    (cliFullData t).fields.map Prod.fst =
      ["text", "utterances", "words", "confidence", "audio_duration",
       "language_code"]
    ∧ (serverFullData t).fields.map Prod.fst =
        ["text", "utterances", "words", "confidence", "audio_duration"]
    ∧ (cliFullData t).fields =
        [("text", FieldValue.ofText t.text),
         ("utterances", FieldValue.ofUtterances t.utterances),
         ("words", FieldValue.ofWords t.words),
         ("confidence", FieldValue.ofConfidence t.confidence),
         ("audio_duration", FieldValue.ofDuration t.audio_duration),
         ("language_code", FieldValue.ofLanguage t.language_code)]
    ∧ (serverFullData t).indent = 2
    ∧ (cliFullData t).indent = 2 := by
  exact fun t => ⟨rfl, rfl, rfl, rfl, rfl⟩

/-- C8 counterexample: for a completed transcript with no utterances the
job writes only the plain-text and JSON files, yet the success response
references all four filenames — the speakers file among them — so the
claimed invariant (all four written, or no unwritten file referenced)
fails at this input. -/
theorem C8_empty_utterances_counterexample :
    ¬ (step5Files "rec" emptyUttResult = referencedFilenames (successFiles "rec")
       ∨ ∀ n ∈ referencedFilenames (successFiles "rec"),
           n ∈ step5Files "rec" emptyUttResult)
    ∧ "rec_speakers.txt" ∈ referencedFilenames (successFiles "rec")
    ∧ "rec_speakers.txt" ∉ step5Files "rec" emptyUttResult := by
  refine ⟨by decide, by decide, by decide⟩

/-- C8 (amended): the success response references exactly the four
output filenames regardless of what was written; when the utterance list
is nonempty the files written are exactly those four, but when it is
empty only the plain-text and full-JSON files are written while all four
are still referenced. -/
theorem C8_written_vs_referenced : ∀ (b : String) (t : TranscriptResult),
    referencedFilenames (successFiles b) =
      [b ++ ".txt", b ++ "_speakers.txt", b ++ "_timestamps.txt",
       b ++ "_full.json"]
    ∧ step5Files b t =
        (if t.utterances.isEmpty then [b ++ ".txt", b ++ "_full.json"]
         else referencedFilenames (successFiles b)) := by
  intro b t
  refine ⟨rfl, ?_⟩
  by_cases h : t.utterances.isEmpty
  · simp [step5Files, h]
  · simp [step5Files, h, referencedFilenames, successFiles, mkFileRef]

/-- C9: with the remote statuses scripted as queued (the create
response), then processing, processing, completed (the successive get
responses), the poll loop returns the completed transcript, having
observed exactly 4 statuses separated by three fixed 5000 ms waits; a
fifth scripted response is never requested (the result is unchanged when
it is removed), so no status check follows the terminal one. -/
theorem C9_poll_loop_scripted :
    cliPoll scriptedCreateResp scriptedGets =
      Except.ok (⟨"t1", TranscriptStatus.completed, none, some sampleResult⟩,
        4, [5000, 5000, 5000])
    ∧ cliPoll scriptedCreateResp (scriptedGets.take 3) =
        cliPoll scriptedCreateResp scriptedGets := by
  exact ⟨rfl, rfl⟩

/-- C10: for every file path, upload-URL assignment and option set, the
CLI upload phase issues exactly two upload calls for the same local file
before the single create call, and the configuration submitted to create
carries the URL of the SECOND upload as audio_url (the first URL appears
nowhere in it), so every CLI job transfers the audio twice. -/
theorem C10_cli_double_upload :
    ∀ (p : String) (urls : Nat → String) (opts : CliOptions),
    ((cliUploadPhase p urls opts).2.filter isUploadCall).length = 2
    ∧ (cliUploadPhase p urls opts).2 =
        [CliRemoteCall.uploadFile p (urls 0),
         CliRemoteCall.uploadFile p (urls 1),
         CliRemoteCall.createJob (cliUploadPhase p urls opts).1]
    ∧ (cliUploadPhase p urls opts).1 =
        { audio_url := urls 1
          language_code := opts.language.getD "ru"
          speaker_labels := true
          punctuate := opts.punctuate
          format_text := opts.formatText
          dual_channel := opts.dualChannel } := by
  exact fun p urls opts => ⟨rfl, rfl, rfl⟩

end Transcriber
